import Mathlib

/-!
Verification development for the IHOP Catering Calculator (`src/app.py`, v3.0.6).

The core of the program is embedded shallowly:

* `LineKey`, `OrderLine`, `build_canon_id`, `merge_or_add_line` — the order-line
  model and the merge-on-duplicate step.
* `COMBO_TIERS`, `MAIN_SERVINGS`, `ALACARTE_LOOKUP` — the static catalog tables.
* `compute_buckets_and_servings` — the aggregation engine.  The Python loop
  mutates five dictionaries; here a line's contribution is recorded as the
  per-unit lists of `(resource, delta)` additions the loop performs for that
  line (in loop order, per dictionary), scaled by the line quantity and folded
  into the running maps with `_add`, exactly as the loop does.  A missing
  combo-tier or à-la-carte key raises `KeyError` in Python; the embedding
  returns `none` in that case.  Dictionaries are embedded as sparse maps
  `String → Option ℤ` (every value the source ever stores is an integer
  written as a Python int/float literal times an integer quantity).
* `apply_guest_requested_toggles` — the toggle derivation.  The Python function
  mutates the `guestware` and `service` dictionaries in place and returns
  `None`; the embedding returns the pair of updated maps.
* `friendly_round_up`, `ceil_to_increment`, `ounces_to_lbs`,
  `bag_and_portion_line_from_oz` — rounding and bag-overflow formatting, over
  `ℚ`.  `pyRound` embeds Python's banker rounding, `pyInt` its `int()`
  truncation, `fmt2` its `%.2f` formatting for the values reached here.
-/

/-! ### String normalisation (`_norm` in the source: `(s or "").strip().lower()`) -/

-- ASCII lower-casing, structurally (Python `.lower()` on the catalog's ASCII strings)
def lowerChar (c : Char) : Char :=
  if 'A' ≤ c ∧ c ≤ 'Z' then Char.ofNat (c.toNat + 32) else c

-- Python `str.strip()` whitespace set
def pySpace (c : Char) : Bool :=
  c = ' ' || c = '\t' || c = '\n' || c = '\r' || c = '\x0b' || c = '\x0c'

def pyStripLower (s : String) : String :=
  String.mk ((((s.data.dropWhile pySpace).reverse.dropWhile pySpace).reverse).map lowerChar)

def _norm (s : Option String) : String := pyStripLower (s.getD "")

/-! ### Order line model -/

structure LineKey where
  kind : String
  item_id : String
  protein : Option String := none
  griddle : Option String := none
  beverage_type : Option String := none
deriving DecidableEq

structure OrderLine where
  key : LineKey
  label : String
  qty : Nat
  canon_id : String
deriving DecidableEq

def build_canon_id (key : LineKey) : String :=
  if key.kind = "combo" then
    "combo|" ++ String.intercalate "|" [_norm (some key.item_id), _norm key.protein, _norm key.griddle]
  else if key.kind = "main" ∨ key.kind = "alacarte" then
    if _norm (some key.item_id) = "cold_beverage" then
      key.kind ++ "|cold_beverage|" ++ _norm key.beverage_type
    else
      key.kind ++ "|" ++ _norm (some key.item_id)
  else
    _norm (some key.kind) ++ "|" ++ _norm (some key.item_id)

-- The spec's SelectionKey equality: same kind, itemId and modifier values up to
-- case-insensitive, whitespace-trimmed comparison.
def keysEquiv (a b : LineKey) : Bool :=
  a.kind == b.kind
    && _norm (some a.item_id) == _norm (some b.item_id)
    && _norm a.protein == _norm b.protein
    && _norm a.griddle == _norm b.griddle
    && _norm a.beverage_type == _norm b.beverage_type

-- `merge_or_add_line`: first line with the same `canon_id` absorbs the quantity,
-- otherwise the new line is appended at the end.
def merge_or_add_line (lines : List OrderLine) (new_line : OrderLine) : List OrderLine :=
  match lines with
  | [] => [new_line]
  | l :: ls =>
    if l.canon_id = new_line.canon_id then
      { l with qty := l.qty + new_line.qty } :: ls
    else
      l :: merge_or_add_line ls new_line

/-! ### Resource maps (`Dict[str, float]` with `_add` / `_drop`) -/

def RMap : Type := String → Option ℤ

def emptyMap : RMap := fun _ => none

def _add (d : RMap) (k : String) (v : ℤ) : RMap :=
  fun q => if q = k then some ((d k).getD 0 + v) else d q

def _drop (d : RMap) (k : String) : RMap :=
  fun q => if q = k then none else d q

def addAll (d : RMap) (ps : List (String × ℤ)) : RMap :=
  ps.foldl (fun d p => _add d p.1 p.2) d

/-! ### Catalog: combo tiers -/

structure ComboSpec where
  servings : Nat
  eggs_oz : ℤ
  red_pots_oz : ℤ
  protein_pcs : ℤ
  pancakes_pcs : ℤ
  ft_slices : ℤ
  half_pans_eggs : ℤ
  half_pans_red_pots : ℤ
  ihop_large_bases_protein : ℤ
  half_pans_pancakes : ℤ
  half_pans_ft : ℤ
  butter_packets : ℤ
  syrup_packets : ℤ
  ketchup_packets : ℤ
  powdered_sugar_cups_2oz : ℤ
  serving_forks : ℤ
  serving_tongs : ℤ
  serving_spoons : ℤ
deriving DecidableEq

def smallComboSpec : ComboSpec :=
  { servings := 10, eggs_oz := 40, red_pots_oz := 60, protein_pcs := 20
  , pancakes_pcs := 20, ft_slices := 10
  , half_pans_eggs := 1, half_pans_red_pots := 1, ihop_large_bases_protein := 1
  , half_pans_pancakes := 1, half_pans_ft := 2
  , butter_packets := 10, syrup_packets := 10, ketchup_packets := 10
  , powdered_sugar_cups_2oz := 1
  , serving_forks := 2, serving_tongs := 2, serving_spoons := 0 }

def mediumComboSpec : ComboSpec :=
  { servings := 20, eggs_oz := 80, red_pots_oz := 120, protein_pcs := 40
  , pancakes_pcs := 40, ft_slices := 20
  , half_pans_eggs := 2, half_pans_red_pots := 2, ihop_large_bases_protein := 2
  , half_pans_pancakes := 2, half_pans_ft := 4
  , butter_packets := 20, syrup_packets := 20, ketchup_packets := 20
  , powdered_sugar_cups_2oz := 2
  , serving_forks := 2, serving_tongs := 2, serving_spoons := 0 }

def largeComboSpec : ComboSpec :=
  { servings := 40, eggs_oz := 160, red_pots_oz := 240, protein_pcs := 80
  , pancakes_pcs := 80, ft_slices := 40
  , half_pans_eggs := 4, half_pans_red_pots := 4, ihop_large_bases_protein := 4
  , half_pans_pancakes := 4, half_pans_ft := 8
  , butter_packets := 40, syrup_packets := 40, ketchup_packets := 40
  , powdered_sugar_cups_2oz := 4
  , serving_forks := 8, serving_tongs := 5, serving_spoons := 0 }

def COMBO_TIERS (tier : String) : Option ComboSpec :=
  if tier = "Small Combo Box" then some smallComboSpec
  else if tier = "Medium Combo Box" then some mediumComboSpec
  else if tier = "Large Combo Box" then some largeComboSpec
  else none

/-! ### Catalog: main items and à la carte -/

def MAIN_SERVINGS (item : String) : Option Nat :=
  if item = "steakburgers_10" then some 10
  else if item = "crispy_chx_sand_10" then some 10
  else if item = "grilled_chx_sand_10" then some 10
  else if item = "chicken_strips_40" then some 10
  else none

structure AlacartePayload where
  pancakes_pcs : Option ℤ := none
  ft_slices : Option ℤ := none
  eggs_oz : Option ℤ := none
  red_pots_oz : Option ℤ := none
  bacon_pcs : Option ℤ := none
  sausage_pcs : Option ℤ := none
  ham_pcs : Option ℤ := none
  fries_oz : Option ℤ := none
  onion_rings_rings : Option ℤ := none
  servings : Option Nat := none
deriving DecidableEq

def ALACARTE_LOOKUP (item_id : String) : Option AlacartePayload :=
  if item_id = "pancakes_20" then some { pancakes_pcs := some 20, servings := some 20 }
  else if item_id = "ft_10_slices" then some { ft_slices := some 10, servings := some 10 }
  else if item_id = "eggs_40oz" then some { eggs_oz := some 40, servings := some 10 }
  else if item_id = "red_pots_40oz" then some { red_pots_oz := some 40, servings := some 10 }
  else if item_id = "bacon_20" then some { bacon_pcs := some 20, servings := some 10 }
  else if item_id = "sausage_20" then some { sausage_pcs := some 20, servings := some 10 }
  else if item_id = "ham_20" then some { ham_pcs := some 20, servings := some 10 }
  else if item_id = "fries_60oz" then some { fries_oz := some 60, servings := some 10 }
  else if item_id = "onion_rings_approx" then some { onion_rings_rings := some 24, servings := some 10 }
  else none

/-! ### Per-line contribution (one unit of the line, before quantity scaling) -/

structure UnitDelta where
  servings : Nat
  food : List (String × ℤ)
  packaging : List (String × ℤ)
  guestware : List (String × ℤ)
  service : List (String × ℤ)
  cond : List (String × ℤ)
deriving DecidableEq

def emptyUnit : UnitDelta :=
  { servings := 0, food := [], packaging := [], guestware := [], service := [], cond := [] }

-- combo protein branch: the `if protein == ... / elif ...` chain
def proteinFoodAdds (spec : ComboSpec) (protein : Option String) : List (String × ℤ) :=
  if protein = some "Bacon" then [("Bacon (pcs)", spec.protein_pcs)]
  else if protein = some "Pork Sausage Links" then [("Pork Sausage Links (pcs)", spec.protein_pcs)]
  else if protein = some "Sampler Ham" then [("Sampler Ham (pcs)", spec.protein_pcs)]
  else []

def proteinPackAdds (spec : ComboSpec) (protein : Option String) : List (String × ℤ) :=
  if protein = some "Bacon" then [("IHOP Large Plastic Base", spec.ihop_large_bases_protein)]
  else if protein = some "Pork Sausage Links" then [("IHOP Large Plastic Base", spec.ihop_large_bases_protein)]
  else if protein = some "Sampler Ham" then [("IHOP Large Plastic Base", spec.ihop_large_bases_protein)]
  else []

-- combo griddle branch: pancakes if chosen, otherwise the French-toast branch
def griddleFoodAdds (spec : ComboSpec) (griddle : Option String) : List (String × ℤ) :=
  if griddle = some "Buttermilk Pancakes" then [("Buttermilk Pancakes (pcs)", spec.pancakes_pcs)]
  else [("French Toast (slices)", spec.ft_slices)]

def griddlePackAdds (spec : ComboSpec) (griddle : Option String) : List (String × ℤ) :=
  if griddle = some "Buttermilk Pancakes" then [("Aluminum ½ Pans", spec.half_pans_pancakes)]
  else [("Aluminum ½ Pans", spec.half_pans_ft)]

def griddleCondAdds (spec : ComboSpec) (griddle : Option String) : List (String × ℤ) :=
  if griddle = some "Buttermilk Pancakes" then []
  else [("Powdered Sugar Cups (2 oz)", spec.powdered_sugar_cups_2oz)]

def comboUnit (spec : ComboSpec) (protein griddle : Option String) : UnitDelta :=
  { servings := spec.servings
  , food := [("Scrambled Eggs (oz)", spec.eggs_oz), ("Red Pots (oz)", spec.red_pots_oz)]
      ++ proteinFoodAdds spec protein ++ griddleFoodAdds spec griddle
  , packaging := proteinPackAdds spec protein ++ griddlePackAdds spec griddle
      ++ [("Aluminum ½ Pans", spec.half_pans_eggs + spec.half_pans_red_pots)]
  , guestware := []
  , service := [("Serving Tongs", spec.serving_tongs), ("Serving Forks", spec.serving_forks)]
      ++ (if 0 < spec.serving_spoons then [("Serving Spoons", spec.serving_spoons)] else [])
  , cond := griddleCondAdds spec griddle
      ++ [("Butter Packets", spec.butter_packets), ("Syrup Packets", spec.syrup_packets),
          ("Ketchup Packets", spec.ketchup_packets)] }

def mainUnit (key : LineKey) : UnitDelta :=
  let item := key.item_id
  let sv := (MAIN_SERVINGS item).getD 0
  if item = "steakburgers_10" ∨ item = "crispy_chx_sand_10" ∨ item = "grilled_chx_sand_10" then
    { servings := sv
    , food := (if item = "steakburgers_10" then [("Steakburger Patties (pcs)", 10)]
               else [("Chicken Sandwiches (pcs)", 10)])
        ++ [("Buns (pcs)", 10), ("Tomato Slices (pcs)", 20), ("Red Onion Rings (pcs)", 20),
            ("Lettuce Leaves (pcs)", 10), ("Pickle Chips (pcs)", 50)]
    , packaging := [("Aluminum ½ Pans", 2), ("Soup Cups (8 oz)", 3)]
    , guestware := []
    , service := [("Serving Tongs", 2), ("Serving Spoons", 2)]
    , cond := [("Mayo Packets", 10), ("Ketchup Packets", 10), ("Mustard Packets", 10)] }
  else if item = "chicken_strips_40" then
    { servings := sv
    , food := [("Chicken Strips (pcs)", 40)]
    , packaging := [("Aluminum ½ Pans", 1), ("Soup Cups (8 oz)", 3)]
    , guestware := []
    , service := [("Serving Tongs", 1), ("Serving Spoons", 3)]
    , cond := [] }
  else if item = "cold_beverage" then
    let bev := match key.beverage_type with
      | some b => if b = "" then "Cold Beverage" else b
      | none => "Cold Beverage"
    { servings := sv
    , food := [("Cold Beverage (128 oz) - " ++ bev, 1)]
    , packaging := [("Beverage Pouches", 1)]
    , guestware := [("Cold Cups", 10), ("Cold Lids", 10), ("Straws", 10)]
    , service := []
    , cond := [] }
  else if item = "coffee_box" then
    { servings := sv
    , food := [("Coffee Box (96 oz)", 1)]
    , packaging := [("Hot Beverage Containers", 1)]
    , guestware := [("Hot Cups", 10), ("Hot Lids", 10), ("Sleeves", 10), ("Stirrers", 10)]
    , service := []
    , cond := [("Sugar Packets", 10), ("Creamers", 10)] }
  else
    -- an unknown main item id matches none of the `if`/`elif` arms: nothing is added
    { servings := sv, food := [], packaging := [], guestware := [], service := [], cond := [] }

def optKV (o : Option ℤ) (k : String) : List (String × ℤ) :=
  match o with
  | some v => [(k, v)]
  | none => []

def flagged (o : Option ℤ) (ps : List (String × ℤ)) : List (String × ℤ) :=
  if o.isSome then ps else []

def alacarteUnit (p : AlacartePayload) : UnitDelta :=
  { servings := p.servings.getD 0
  , food := optKV p.pancakes_pcs "Buttermilk Pancakes (pcs)"
      ++ optKV p.ft_slices "French Toast (slices)"
      ++ optKV p.eggs_oz "Scrambled Eggs (oz)"
      ++ optKV p.red_pots_oz "Red Pots (oz)"
      ++ optKV p.bacon_pcs "Bacon (pcs)"
      ++ optKV p.sausage_pcs "Pork Sausage Links (pcs)"
      ++ optKV p.ham_pcs "Sampler Ham (pcs)"
      ++ optKV p.fries_oz "French Fries (oz)"
      ++ optKV p.onion_rings_rings "Onion Rings (rings)"
  , packaging := flagged p.pancakes_pcs [("Aluminum ½ Pans", 2)]
      ++ flagged p.ft_slices [("Aluminum ½ Pans", 2)]
      ++ flagged p.eggs_oz [("Aluminum ½ Pans", 1)]
      ++ flagged p.red_pots_oz [("Aluminum ½ Pans", 1)]
      ++ flagged p.bacon_pcs [("IHOP Large Plastic Base", 1)]
      ++ flagged p.sausage_pcs [("IHOP Large Plastic Base", 1)]
      ++ flagged p.ham_pcs [("IHOP Large Plastic Base", 1)]
      ++ flagged p.fries_oz [("Aluminum ½ Pans", 1)]
      ++ flagged p.onion_rings_rings [("Aluminum ½ Pans", 2)]
  , guestware := []
  , service := flagged p.pancakes_pcs [("Serving Tongs", 2)]
      ++ flagged p.ft_slices [("Serving Tongs", 1)]
      ++ flagged p.fries_oz [("Serving Tongs", 1)]
      ++ flagged p.onion_rings_rings [("Serving Tongs", 1)]
  , cond := flagged p.pancakes_pcs [("Butter Packets", 20), ("Syrup Packets", 20)]
      ++ flagged p.ft_slices
           [("Butter Packets", 10), ("Syrup Packets", 10), ("Powdered Sugar Cups (2 oz)", 1)]
      ++ flagged p.fries_oz [("Ketchup Packets", 10)]
      ++ flagged p.onion_rings_rings [("Ketchup Packets", 10)] }

-- The additions `compute_buckets_and_servings` performs for one unit of a line.
-- `none` when the line's lookup raises `KeyError` in the source (unknown combo
-- tier, unknown à-la-carte id).  Lines of an unknown kind match no branch.
def lineSpec (key : LineKey) : Option UnitDelta :=
  if key.kind = "combo" then
    (COMBO_TIERS key.item_id).map (fun spec => comboUnit spec key.protein key.griddle)
  else if key.kind = "main" then
    some (mainUnit key)
  else if key.kind = "alacarte" then
    (ALACARTE_LOOKUP key.item_id).map alacarteUnit
  else
    some emptyUnit

/-! ### Aggregation -/

def scaleList (qty : Nat) (ps : List (String × ℤ)) : List (String × ℤ) :=
  ps.map (fun p => (p.1, p.2 * (qty : ℤ)))

def UnitDelta.scaled (u : UnitDelta) (qty : Nat) : UnitDelta :=
  { servings := u.servings * qty
  , food := scaleList qty u.food
  , packaging := scaleList qty u.packaging
  , guestware := scaleList qty u.guestware
  , service := scaleList qty u.service
  , cond := scaleList qty u.cond }

structure Totals where
  servings : Nat
  food : RMap
  packaging : RMap
  guestware : RMap
  service : RMap
  cond : RMap

def emptyTotals : Totals :=
  { servings := 0, food := emptyMap, packaging := emptyMap, guestware := emptyMap
  , service := emptyMap, cond := emptyMap }

def applyDelta (t : Totals) (u : UnitDelta) : Totals :=
  { servings := t.servings + u.servings
  , food := addAll t.food u.food
  , packaging := addAll t.packaging u.packaging
  , guestware := addAll t.guestware u.guestware
  , service := addAll t.service u.service
  , cond := addAll t.cond u.cond }

def applyStep (t : Totals) (l : OrderLine) : Option Totals :=
  (lineSpec l.key).map (fun u => applyDelta t (u.scaled l.qty))

def computeAux : Totals → List OrderLine → Option Totals
  | t, [] => some t
  | t, l :: ls =>
    match applyStep t l with
    | none => none
    | some t2 => computeAux t2 ls

def compute_buckets_and_servings (lines : List OrderLine) : Option Totals :=
  computeAux emptyTotals lines

/-! ### Toggle derivation -/

-- The Python function mutates `guestware` and `service` in place and returns
-- `None`; the embedding returns the two maps as they stand after the call.
def apply_guest_requested_toggles (total_servings : Nat) (guestware service : RMap)
    (req_plates req_utensils req_napkins : Bool) : RMap × RMap :=
  let g1 := if req_plates ∧ 0 < total_servings
    then _add guestware "Paper Plates" (total_servings : ℤ) else guestware
  let g2 := if req_napkins ∧ 0 < total_servings
    then _add g1 "Napkins" (total_servings : ℤ) else g1
  if req_utensils ∧ 0 < total_servings then
    (_add g2 "Wrapped Cutlery Sets" (total_servings : ℤ), service)
  else
    (g2, _drop (_drop (_drop service "Serving Tongs") "Serving Spoons") "Serving Forks")

-- The day-of output block: aggregate, then apply the toggles.  `headcount` is
-- passed alongside (it is printed on the PDF header) but reaches no computation.
def day_of_totals (lines : List OrderLine) (headcount : Nat)
    (req_plates req_utensils req_napkins : Bool) : Option Totals :=
  match compute_buckets_and_servings lines with
  | none => none
  | some t =>
    let gs := apply_guest_requested_toggles t.servings t.guestware t.service
      req_plates req_utensils req_napkins
    some { t with guestware := gs.1, service := gs.2 }

/-! ### Rounding helpers (over ℚ) -/

def ceil_to_increment (x inc : ℚ) : ℚ := ⌈x / inc⌉ * inc

def friendly_round_up (x inc tiny_over : ℚ) : ℚ :=
  let nearest_down := ⌊x / inc⌋ * inc
  if x - nearest_down ≤ tiny_over then nearest_down
  else ceil_to_increment x inc

def ounces_to_lbs (oz : ℚ) : ℚ := oz / 16

/-! ### Bag-overflow formatting -/

-- Python 3 `round()` (round-half-to-even) on a rational
def pyRound (x : ℚ) : ℤ :=
  if x - ⌊x⌋ < 1 / 2 then ⌊x⌋
  else if 1 / 2 < x - ⌊x⌋ then ⌊x⌋ + 1
  else if 2 ∣ ⌊x⌋ then ⌊x⌋ else ⌊x⌋ + 1

-- Python `int()` truncation
def pyInt (x : ℚ) : ℤ := if x < 0 then ⌈x⌉ else ⌊x⌋

-- Python `%.2f` (the values formatted here are exactly representable)
def fmt2 (x : ℚ) : String :=
  (toString (pyRound (x * 100) / 100)) ++ "."
    ++ (if pyRound (x * 100) % 100 < 10 then "0" else "")
    ++ toString (pyRound (x * 100) % 100)

def bagWord (full_bags : ℤ) : String := if full_bags = 1 then "bag" else "bags"

def underBagFmt (name : String) (total_oz : ℚ) (total_portions : ℤ) (total_lb : ℚ) : String :=
  name ++ ": " ++ toString (pyInt total_oz) ++ " oz (" ++ toString total_portions
    ++ " portions / " ++ fmt2 total_lb ++ " lb)"

def exactBagsFmt (name : String) (full_bags : ℤ) : String :=
  name ++ ": " ++ toString full_bags ++ " " ++ bagWord full_bags

def plusBagsFmt (name : String) (full_bags : ℤ) (rem_oz : ℚ) (rem_portions : ℤ) (rem_lb : ℚ) :
    String :=
  name ++ ": " ++ toString full_bags ++ " " ++ bagWord full_bags ++ " PLUS "
    ++ toString (pyRound rem_oz) ++ " oz (" ++ toString rem_portions ++ " portions / "
    ++ fmt2 rem_lb ++ " lb)"

def bag_and_portion_line_from_oz (name : String) (total_oz portion_oz bag_lb : ℚ) : String :=
  if total_oz = 0 then ""
  else
    let total_lb := ounces_to_lbs total_oz
    let total_portions := pyRound (total_oz / portion_oz)
    let full_bags : ℤ := ⌊total_lb / bag_lb⌋
    let rem_lb := total_lb - (full_bags : ℚ) * bag_lb
    let rem_oz := rem_lb * 16
    if full_bags = 0 then
      underBagFmt name total_oz total_portions total_lb
    else if rem_oz ≤ 1 / 100 then
      exactBagsFmt name full_bags
    else
      plusBagsFmt name full_bags rem_oz (pyRound (rem_oz / portion_oz)) rem_lb

/-! ### Accessors and concrete lines used by the theorems -/

def foodAt (o : Option Totals) (k : String) : Option (Option ℤ) := o.map (fun t => t.food k)
def packagingAt (o : Option Totals) (k : String) : Option (Option ℤ) := o.map (fun t => t.packaging k)
def guestwareAt (o : Option Totals) (k : String) : Option (Option ℤ) := o.map (fun t => t.guestware k)
def serviceAt (o : Option Totals) (k : String) : Option (Option ℤ) := o.map (fun t => t.service k)
def condAt (o : Option Totals) (k : String) : Option (Option ℤ) := o.map (fun t => t.cond k)

def smallBaconPancakesKey : LineKey :=
  { kind := "combo", item_id := "Small Combo Box", protein := some "Bacon"
  , griddle := some "Buttermilk Pancakes", beverage_type := none }

def smallBaconPancakesLine (q : Nat) : OrderLine :=
  { key := smallBaconPancakesKey, label := "Small Combo Box | Bacon | Buttermilk Pancakes"
  , qty := q, canon_id := build_canon_id smallBaconPancakesKey }

-- same selection typed with different case: equal under `keysEquiv`, not as records
def smallLowerBaconKey : LineKey :=
  { kind := "combo", item_id := "Small Combo Box", protein := some "bacon"
  , griddle := some "Buttermilk Pancakes", beverage_type := none }

def smallLowerBaconLine (q : Nat) : OrderLine :=
  { key := smallLowerBaconKey, label := "Small Combo Box | bacon | Buttermilk Pancakes"
  , qty := q, canon_id := build_canon_id smallLowerBaconKey }

def coffeeBoxKey : LineKey :=
  { kind := "main", item_id := "coffee_box", protein := none, griddle := none
  , beverage_type := none }

def coffeeBoxLine (q : Nat) : OrderLine :=
  { key := coffeeBoxKey, label := "Coffee Box (96 oz)", qty := q
  , canon_id := build_canon_id coffeeBoxKey }

def bogusComboKey : LineKey :=
  { kind := "combo", item_id := "Jumbo Combo Box", protein := some "Bacon"
  , griddle := some "Buttermilk Pancakes", beverage_type := none }

def bogusComboLine : OrderLine :=
  { key := bogusComboKey, label := "Jumbo Combo Box", qty := 1
  , canon_id := build_canon_id bogusComboKey }

def bogusAlacarteKey : LineKey :=
  { kind := "alacarte", item_id := "hash_browns_30oz", protein := none, griddle := none
  , beverage_type := none }

def bogusAlacarteLine : OrderLine :=
  { key := bogusAlacarteKey, label := "Hash Browns (30 oz)", qty := 1
  , canon_id := build_canon_id bogusAlacarteKey }

def bogusMainKey : LineKey :=
  { kind := "main", item_id := "mystery_item", protein := none, griddle := none
  , beverage_type := none }

def bogusMainLine : OrderLine :=
  { key := bogusMainKey, label := "Mystery Item", qty := 1
  , canon_id := build_canon_id bogusMainKey }

-- the six main-item ids offered by the UI (`MAIN_ITEMS`)
def MAIN_ITEM_IDS : List String :=
  ["steakburgers_10", "crispy_chx_sand_10", "grilled_chx_sand_10", "chicken_strips_40",
   "cold_beverage", "coffee_box"]

/-! ### Map algebra -/

theorem _add_comm (d : RMap) (k1 k2 : String) (v1 v2 : ℤ) :
    _add (_add d k1 v1) k2 v2 = _add (_add d k2 v2) k1 v1 := by
  funext q
  simp only [_add]
  by_cases h1 : q = k1 <;> by_cases h2 : q = k2
  · subst h1
    subst h2
    simp
    omega
  · subst h1
    simp [h2, Ne.symm h2]
  · subst h2
    simp [h1, Ne.symm h1]
  · simp [h1, h2]

theorem _add_split (d : RMap) (k : String) (v w : ℤ) :
    _add d k (v + w) = _add (_add d k v) k w := by
  funext q
  simp only [_add]
  by_cases h : q = k
  · subst h
    simp
    omega
  · simp [h]

theorem addAll_cons (d : RMap) (p : String × ℤ) (ps : List (String × ℤ)) :
    addAll d (p :: ps) = addAll (_add d p.1 p.2) ps := rfl

theorem scaleList_cons (q : Nat) (p : String × ℤ) (ps : List (String × ℤ)) :
    scaleList q (p :: ps) = (p.1, p.2 * (q : ℤ)) :: scaleList q ps := rfl

theorem addAll_append (d : RMap) (ps qs : List (String × ℤ)) :
    addAll d (ps ++ qs) = addAll (addAll d ps) qs := by
  simp [addAll, List.foldl_append]

theorem addAll_add_comm (d : RMap) (k : String) (v : ℤ) (ps : List (String × ℤ)) :
    addAll (_add d k v) ps = _add (addAll d ps) k v := by
  induction ps generalizing d with
  | nil => rfl
  | cons p ps ih =>
    rw [addAll_cons, _add_comm, ih, addAll_cons]

theorem addAll_comm (d : RMap) (ps qs : List (String × ℤ)) :
    addAll (addAll d ps) qs = addAll (addAll d qs) ps := by
  induction ps generalizing d with
  | nil => rfl
  | cons p ps ih =>
    rw [addAll_cons, ih, addAll_add_comm, addAll_cons]

theorem addAll_scale_add (d : RMap) (a b : Nat) (ps : List (String × ℤ)) :
    addAll d (scaleList (a + b) ps) = addAll (addAll d (scaleList a ps)) (scaleList b ps) := by
  induction ps generalizing d with
  | nil => rfl
  | cons p ps ih =>
    obtain ⟨k, v⟩ := p
    rw [scaleList_cons, scaleList_cons, scaleList_cons, addAll_cons, addAll_cons, addAll_cons]
    have hv : v * ((a + b : Nat) : ℤ) = v * (a : ℤ) + v * (b : ℤ) := by
      push_cast
      ring
    rw [hv, _add_split, addAll_add_comm, ih,
      addAll_add_comm (addAll (_add d k (v * (a : ℤ))) (scaleList a ps)) k (v * (b : ℤ))
        (scaleList b ps)]

theorem addAll_not_mem (d : RMap) (ps : List (String × ℤ)) (k : String) :
    (∀ p ∈ ps, p.1 ≠ k) → addAll d ps k = d k := by
  induction ps generalizing d with
  | nil => intro _; rfl
  | cons p ps ih =>
    obtain ⟨k1, v1⟩ := p
    intro h
    rw [addAll_cons, ih _ (fun x hx => h x (List.mem_cons_of_mem _ hx))]
    simp only [_add]
    rw [if_neg (fun hh : k = k1 => h (k1, v1) (List.mem_cons_self _ _) hh.symm)]

theorem scaleList_keys (q : Nat) (ps : List (String × ℤ)) (k : String)
    (h : ∀ p ∈ ps, p.1 ≠ k) : ∀ p ∈ scaleList q ps, p.1 ≠ k := by
  intro p hp
  simp only [scaleList, List.mem_map] at hp
  obtain ⟨p0, hp0, rfl⟩ := hp
  exact h p0 hp0

/-! ### Aggregation algebra -/

theorem applyDelta_comm (t : Totals) (u v : UnitDelta) :
    applyDelta (applyDelta t u) v = applyDelta (applyDelta t v) u := by
  simp only [applyDelta]
  congr 1
  · omega
  all_goals apply addAll_comm

theorem applyDelta_scale_add (t : Totals) (u : UnitDelta) (a b : Nat) :
    applyDelta t (u.scaled (a + b)) = applyDelta (applyDelta t (u.scaled a)) (u.scaled b) := by
  simp only [applyDelta, UnitDelta.scaled]
  congr 1
  · ring
  all_goals apply addAll_scale_add

theorem computeAux_append (t : Totals) (xs ys : List OrderLine) :
    computeAux t (xs ++ ys) = (computeAux t xs).bind (fun t2 => computeAux t2 ys) := by
  induction xs generalizing t with
  | nil => rfl
  | cons x xs ih =>
    simp only [List.cons_append, computeAux]
    cases h : applyStep t x with
    | none => rfl
    | some t2 => exact ih t2

theorem computeAux_perm {l1 l2 : List OrderLine} (h : l1.Perm l2) :
    ∀ t, computeAux t l1 = computeAux t l2 := by
  induction h with
  | nil => intro t; rfl
  | cons x h ih =>
    intro t
    simp only [computeAux]
    cases hx : applyStep t x with
    | none => rfl
    | some t2 => exact ih t2
  | swap x y l =>
    intro t
    simp only [computeAux, applyStep]
    cases hy : lineSpec y.key with
    | none =>
      cases hx : lineSpec x.key with
      | none => rfl
      | some ux => simp
    | some uy =>
      cases hx : lineSpec x.key with
      | none => simp
      | some ux =>
        simp only [Option.map_some']
        rw [applyDelta_comm]
  | trans h1 h2 ih1 ih2 => intro t; exact (ih1 t).trans (ih2 t)

theorem compute_single (l : OrderLine) :
    compute_buckets_and_servings [l]
      = (lineSpec l.key).map (fun u => applyDelta emptyTotals (u.scaled l.qty)) := by
  cases h : lineSpec l.key <;>
    simp [compute_buckets_and_servings, computeAux, applyStep, h]

/-! ### Catalog case analysis and per-line invariants -/

theorem combo_spec_cases (tier : String) (spec : ComboSpec) (h : COMBO_TIERS tier = some spec) :
    spec = smallComboSpec ∨ spec = mediumComboSpec ∨ spec = largeComboSpec := by
  unfold COMBO_TIERS at h
  by_cases h1 : tier = "Small Combo Box"
  · rw [if_pos h1] at h
    exact Or.inl (Option.some.inj h).symm
  · rw [if_neg h1] at h
    by_cases h2 : tier = "Medium Combo Box"
    · rw [if_pos h2] at h
      exact Or.inr (Or.inl (Option.some.inj h).symm)
    · rw [if_neg h2] at h
      by_cases h3 : tier = "Large Combo Box"
      · rw [if_pos h3] at h
        exact Or.inr (Or.inr (Option.some.inj h).symm)
      · rw [if_neg h3] at h
        exact Option.noConfusion h

theorem alacarte_unit_servings (i : String) (p : AlacartePayload) (h : ALACARTE_LOOKUP i = some p) :
    (alacarteUnit p).service ≠ [] → 1 ≤ (alacarteUnit p).servings := by
  unfold ALACARTE_LOOKUP at h
  by_cases h1 : i = "pancakes_20"
  · rw [if_pos h1] at h
    cases (Option.some.inj h)
    decide
  · rw [if_neg h1] at h
    by_cases h2 : i = "ft_10_slices"
    · rw [if_pos h2] at h
      cases (Option.some.inj h)
      decide
    · rw [if_neg h2] at h
      by_cases h3 : i = "eggs_40oz"
      · rw [if_pos h3] at h
        cases (Option.some.inj h)
        decide
      · rw [if_neg h3] at h
        by_cases h4 : i = "red_pots_40oz"
        · rw [if_pos h4] at h
          cases (Option.some.inj h)
          decide
        · rw [if_neg h4] at h
          by_cases h5 : i = "bacon_20"
          · rw [if_pos h5] at h
            cases (Option.some.inj h)
            decide
          · rw [if_neg h5] at h
            by_cases h6 : i = "sausage_20"
            · rw [if_pos h6] at h
              cases (Option.some.inj h)
              decide
            · rw [if_neg h6] at h
              by_cases h7 : i = "ham_20"
              · rw [if_pos h7] at h
                cases (Option.some.inj h)
                decide
              · rw [if_neg h7] at h
                by_cases h8 : i = "fries_60oz"
                · rw [if_pos h8] at h
                  cases (Option.some.inj h)
                  decide
                · rw [if_neg h8] at h
                  by_cases h9 : i = "onion_rings_approx"
                  · rw [if_pos h9] at h
                    cases (Option.some.inj h)
                    decide
                  · rw [if_neg h9] at h
                    exact Option.noConfusion h

theorem mainUnit_service_servings (key : LineKey) :
    (mainUnit key).service ≠ [] → 1 ≤ (mainUnit key).servings := by
  simp only [mainUnit]
  by_cases h1 : key.item_id = "steakburgers_10" ∨ key.item_id = "crispy_chx_sand_10"
      ∨ key.item_id = "grilled_chx_sand_10"
  · simp only [if_pos h1]
    intro _
    rcases h1 with h1 | h1 | h1 <;> rw [h1] <;> decide
  · simp only [if_neg h1]
    by_cases h2 : key.item_id = "chicken_strips_40"
    · simp only [if_pos h2]
      intro _
      rw [h2]
      decide
    · simp only [if_neg h2]
      by_cases h3 : key.item_id = "cold_beverage"
      · simp only [if_pos h3]
        intro hne
        exact absurd rfl hne
      · simp only [if_neg h3]
        by_cases h4 : key.item_id = "coffee_box"
        · simp only [if_pos h4]
          intro hne
          exact absurd rfl hne
        · simp only [if_neg h4]
          intro hne
          exact absurd rfl hne

theorem mainUnit_guestware_keys (key : LineKey) :
    ∀ p ∈ (mainUnit key).guestware, p.1 ≠ "Wrapped Cutlery Sets" := by
  simp only [mainUnit]
  by_cases h1 : key.item_id = "steakburgers_10" ∨ key.item_id = "crispy_chx_sand_10"
      ∨ key.item_id = "grilled_chx_sand_10"
  · simp only [if_pos h1]
    intro p hp
    simp at hp
  · simp only [if_neg h1]
    by_cases h2 : key.item_id = "chicken_strips_40"
    · simp only [if_pos h2]
      intro p hp
      simp at hp
    · simp only [if_neg h2]
      by_cases h3 : key.item_id = "cold_beverage"
      · simp only [if_pos h3]
        intro p hp
        simp only [List.mem_cons, List.not_mem_nil, or_false] at hp
        rcases hp with rfl | rfl | rfl <;> decide
      · simp only [if_neg h3]
        by_cases h4 : key.item_id = "coffee_box"
        · simp only [if_pos h4]
          intro p hp
          simp only [List.mem_cons, List.not_mem_nil, or_false] at hp
          rcases hp with rfl | rfl | rfl | rfl <;> decide
        · simp only [if_neg h4]
          intro p hp
          simp at hp

theorem lineSpec_service_servings (key : LineKey) (u : UnitDelta) (h : lineSpec key = some u) :
    u.service ≠ [] → 1 ≤ u.servings := by
  unfold lineSpec at h
  split at h
  · rcases Option.map_eq_some'.mp h with ⟨spec, hspec, rfl⟩
    intro _
    rcases combo_spec_cases _ _ hspec with rfl | rfl | rfl <;>
      simp [comboUnit, smallComboSpec, mediumComboSpec, largeComboSpec]
  · split at h
    · cases h
      exact mainUnit_service_servings key
    · split at h
      · rcases Option.map_eq_some'.mp h with ⟨p, hp, rfl⟩
        exact alacarte_unit_servings _ _ hp
      · cases h
        intro hne
        exact absurd rfl hne

theorem lineSpec_guestware_keys (key : LineKey) (u : UnitDelta) (h : lineSpec key = some u) :
    ∀ p ∈ u.guestware, p.1 ≠ "Wrapped Cutlery Sets" := by
  unfold lineSpec at h
  split at h
  · rcases Option.map_eq_some'.mp h with ⟨spec, hspec, rfl⟩
    intro p hp
    simp [comboUnit] at hp
  · split at h
    · cases h
      exact mainUnit_guestware_keys key
    · split at h
      · rcases Option.map_eq_some'.mp h with ⟨pld, hpld, rfl⟩
        intro p hp
        simp [alacarteUnit] at hp
      · cases h
        intro p hp
        simp [emptyUnit] at hp

/-! ### Aggregate invariants -/

theorem computeAux_service_inv (ls : List OrderLine) :
    ∀ t t2, (∀ l ∈ ls, 1 ≤ l.qty) → computeAux t ls = some t2 →
      t.servings ≤ t2.servings ∧ (t2.servings ≤ t.servings → t2.service = t.service) := by
  induction ls with
  | nil =>
    intro t t2 _ h
    cases h
    exact ⟨le_refl _, fun _ => rfl⟩
  | cons l ls ih =>
    intro t t2 hq h
    simp only [computeAux] at h
    split at h
    · exact Option.noConfusion h
    · rename_i t1 hs
      rcases Option.map_eq_some'.mp hs with ⟨u, hu, rfl⟩
      have hql : 1 ≤ l.qty := hq l (List.mem_cons_self _ _)
      have ihr := ih _ _ (fun x hx => hq x (List.mem_cons_of_mem _ hx)) h
      have hserv : (applyDelta t (u.scaled l.qty)).servings = t.servings + u.servings * l.qty := rfl
      constructor
      · have h1 := ihr.1
        omega
      · intro hle
        have h1 := ihr.1
        have hmul : u.servings * l.qty = 0 := by omega
        have hu0 : u.servings = 0 := by
          rcases Nat.mul_eq_zero.mp hmul with h' | h'
          · exact h'
          · omega
        have hsvcnil : u.service = [] := by
          by_contra hne
          have := lineSpec_service_servings _ _ hu hne
          omega
        have hsvc : (applyDelta t (u.scaled l.qty)).service = t.service := by
          show addAll t.service (scaleList l.qty u.service) = t.service
          rw [hsvcnil]
          rfl
        rw [ihr.2 (by omega), hsvc]

theorem computeAux_guestware_wcs (ls : List OrderLine) :
    ∀ t t2, computeAux t ls = some t2 →
      t2.guestware "Wrapped Cutlery Sets" = t.guestware "Wrapped Cutlery Sets" := by
  induction ls with
  | nil =>
    intro t t2 h
    cases h
    rfl
  | cons l ls ih =>
    intro t t2 h
    simp only [computeAux] at h
    split at h
    · exact Option.noConfusion h
    · rename_i t1 hs
      rcases Option.map_eq_some'.mp hs with ⟨u, hu, rfl⟩
      rw [ih _ _ h]
      show addAll t.guestware (scaleList l.qty u.guestware) _ = _
      exact addAll_not_mem _ _ _ (scaleList_keys _ _ _ (lineSpec_guestware_keys _ _ hu))

/-! ### Pointwise helpers -/

theorem _add_ne (d : RMap) (k q : String) (v : ℤ) (h : q ≠ k) : _add d k v q = d q := by
  simp [_add, h]

theorem _drop_ne (d : RMap) (k q : String) (h : q ≠ k) : _drop d k q = d q := by
  simp [_drop, h]

theorem scaleList_append (q : Nat) (xs ys : List (String × ℤ)) :
    scaleList q (xs ++ ys) = scaleList q xs ++ scaleList q ys := by
  simp [scaleList]

theorem addAll_empty_lookup_none (ps : List (String × ℤ)) (k : String)
    (h : ∀ p ∈ ps, p.1 ≠ k) : addAll emptyMap ps k = none := by
  rw [addAll_not_mem _ _ _ h]
  rfl

theorem addAll_empty_lookup_single (front back : List (String × ℤ)) (k : String) (v : ℤ)
    (hf : ∀ p ∈ front, p.1 ≠ k) (hb : ∀ p ∈ back, p.1 ≠ k) :
    addAll emptyMap (front ++ (k, v) :: back) k = some v := by
  rw [addAll_append, addAll_cons, addAll_add_comm]
  have hX : addAll (addAll emptyMap front) back k = none := by
    rw [addAll_not_mem _ _ _ hb, addAll_not_mem _ _ _ hf]
    rfl
  simp [_add, hX]

theorem addAll_empty_lookup_two (front : List (String × ℤ)) (k : String) (v w : ℤ)
    (hf : ∀ p ∈ front, p.1 ≠ k) :
    addAll emptyMap (front ++ [(k, v), (k, w)]) k = some (v + w) := by
  rw [addAll_append]
  show (_add (_add (addAll emptyMap front) k v) k w) k = some (v + w)
  have hfront : addAll emptyMap front k = none := by
    rw [addAll_not_mem _ _ _ hf]
    rfl
  simp [_add, hfront, add_assoc]

/-! ### Claims -/

/-- C4: `friendly_round_up x inc tiny` computes the floored multiple
`⌊x / inc⌋ * inc`, returns it when `x` exceeds it by at most `tiny`, and
otherwise returns the smallest multiple of `inc` that is `≥ x`; with
increment `0.5` and threshold `0.05`: `5.01 ↦ 5.0`, `5.06 ↦ 5.5`,
`1.16 ↦ 1.5`, and `4.0 ↦ 4.0` (an exact boundary is returned unchanged). -/
theorem c4_friendly_round_up :
    (friendly_round_up 5.01 0.5 0.05 = 5
      ∧ friendly_round_up 5.06 0.5 0.05 = 5.5
      ∧ friendly_round_up 1.16 0.5 0.05 = 1.5
      ∧ friendly_round_up 4 0.5 0.05 = 4)
    ∧ ∀ x inc tiny : ℚ, 0 < inc →
        (x - ⌊x / inc⌋ * inc ≤ tiny → friendly_round_up x inc tiny = ⌊x / inc⌋ * inc)
        ∧ (¬ (x - ⌊x / inc⌋ * inc ≤ tiny) →
            x ≤ friendly_round_up x inc tiny
            ∧ (∃ n : ℤ, friendly_round_up x inc tiny = (n : ℚ) * inc)
            ∧ ∀ m : ℤ, x ≤ (m : ℚ) * inc → friendly_round_up x inc tiny ≤ (m : ℚ) * inc) := by
  constructor
  · refine ⟨?_, ?_, ?_, ?_⟩
    · have hf : ⌊(5.01 : ℚ) / (0.5 : ℚ)⌋ = (10 : ℤ) := by
        norm_num [Int.floor_eq_iff]
      simp only [friendly_round_up, hf]
      rw [if_pos (by norm_num)]
      norm_num
    · have hf : ⌊(5.06 : ℚ) / (0.5 : ℚ)⌋ = (10 : ℤ) := by
        norm_num [Int.floor_eq_iff]
      have hc : ⌈(5.06 : ℚ) / (0.5 : ℚ)⌉ = (11 : ℤ) := by
        norm_num [Int.ceil_eq_iff]
      simp only [friendly_round_up, ceil_to_increment, hf, hc]
      rw [if_neg (by norm_num)]
      norm_num
    · have hf : ⌊(1.16 : ℚ) / (0.5 : ℚ)⌋ = (2 : ℤ) := by
        norm_num [Int.floor_eq_iff]
      have hc : ⌈(1.16 : ℚ) / (0.5 : ℚ)⌉ = (3 : ℤ) := by
        norm_num [Int.ceil_eq_iff]
      simp only [friendly_round_up, ceil_to_increment, hf, hc]
      rw [if_neg (by norm_num)]
      norm_num
    · have hf : ⌊(4 : ℚ) / (0.5 : ℚ)⌋ = (8 : ℤ) := by
        norm_num [Int.floor_eq_iff]
      simp only [friendly_round_up, hf]
      rw [if_pos (by norm_num)]
      norm_num
  · intro x inc tiny hinc
    constructor
    · intro hle
      simp only [friendly_round_up]
      rw [if_pos hle]
    · intro hgt
      simp only [friendly_round_up]
      rw [if_neg hgt]
      refine ⟨?_, ⟨⌈x / inc⌉, rfl⟩, ?_⟩
      · have h1 : x / inc ≤ (⌈x / inc⌉ : ℚ) := Int.le_ceil _
        have h2 : (x / inc) * inc ≤ (⌈x / inc⌉ : ℚ) * inc :=
          mul_le_mul_of_nonneg_right h1 (le_of_lt hinc)
        rw [div_mul_cancel₀ _ (ne_of_gt hinc)] at h2
        exact h2
      · intro m hm
        have h1 : x / inc ≤ (m : ℚ) := by
          rw [div_le_iff₀ hinc]
          exact hm
        have h2 : (⌈x / inc⌉ : ℤ) ≤ m := Int.ceil_le.mpr h1
        exact mul_le_mul_of_nonneg_right (by exact_mod_cast h2) (le_of_lt hinc)

/-- C4 witness: the general rounding clause of `c4_friendly_round_up`
evaluated at `x = 4`, `inc = 0.5`, `tiny = 0.05`. -/
theorem c4_friendly_round_up_witness :
    (0 : ℚ) < 0.5
    ∧ ((4 : ℚ) - ⌊(4 : ℚ) / (0.5 : ℚ)⌋ * (0.5 : ℚ) ≤ (0.05 : ℚ) →
        friendly_round_up 4 0.5 0.05 = ⌊(4 : ℚ) / (0.5 : ℚ)⌋ * (0.5 : ℚ)) :=
  ⟨by norm_num, (c4_friendly_round_up.2 4 0.5 0.05 (by norm_num)).1⟩

/-- C10: headcount reaches no computation: running the day-of pipeline with the
same order lines and toggles but different headcounts yields identical servings
and identical five resource maps. -/
theorem c10_headcount_noninterference (lines : List OrderLine) (h1 h2 : Nat)
    (rp ru rn : Bool) :
    day_of_totals lines h1 rp ru rn = day_of_totals lines h2 rp ru rn := rfl

/-- C3: aggregation is permutation-invariant: permuted order-line lists produce
identical results (same total servings and the same five resource maps, and the
same error behaviour). -/
theorem c3_aggregate_perm_invariant (l1 l2 : List OrderLine) (h : l1.Perm l2) :
    compute_buckets_and_servings l1 = compute_buckets_and_servings l2 :=
  computeAux_perm h emptyTotals

/-- C3 witness: swapping a combo line and a coffee-box line. -/
theorem c3_aggregate_perm_invariant_witness :
    List.Perm [smallBaconPancakesLine 2, coffeeBoxLine 1] [coffeeBoxLine 1, smallBaconPancakesLine 2]
    ∧ compute_buckets_and_servings [smallBaconPancakesLine 2, coffeeBoxLine 1]
        = compute_buckets_and_servings [coffeeBoxLine 1, smallBaconPancakesLine 2] :=
  ⟨List.Perm.swap (coffeeBoxLine 1) (smallBaconPancakesLine 2) [],
   c3_aggregate_perm_invariant _ _
     (List.Perm.swap (coffeeBoxLine 1) (smallBaconPancakesLine 2) [])⟩

/-- C2 counterexample: two combo lines whose keys are equal under the
case-insensitive SelectionKey comparison (`Bacon` vs `bacon`) do merge into a
single line of quantity 7, but aggregating the merged line gives 140 bacon
pieces while aggregating the two unmerged lines gives only 60 (the aggregation
branch compares modifier strings exactly, so the lower-case line contributes no
protein), falsifying the claimed equality of totals. -/
theorem c2_counterexample :
    keysEquiv (smallBaconPancakesLine 3).key (smallLowerBaconLine 4).key = true
    ∧ merge_or_add_line (merge_or_add_line [] (smallBaconPancakesLine 3)) (smallLowerBaconLine 4)
        = [{ smallBaconPancakesLine 3 with qty := 7 }]
    ∧ foodAt (compute_buckets_and_servings
          (merge_or_add_line (merge_or_add_line [] (smallBaconPancakesLine 3))
            (smallLowerBaconLine 4)))
        "Bacon (pcs)" = some (some 140)
    ∧ foodAt (compute_buckets_and_servings [smallBaconPancakesLine 3, smallLowerBaconLine 4])
        "Bacon (pcs)" = some (some 60) :=
  ⟨by decide, by decide, by decide, by decide⟩

/-- C2 (amended): for two lines whose LineKeys are equal as constructed
(identical kind, itemId and modifier strings — which is what the catalog-backed
UI produces), adding both leaves exactly one line carrying the summed quantity,
and aggregating that merged line equals aggregating the two unmerged lines. -/
theorem c2_merge_exact_key (k : LineKey) (lab1 lab2 : String) (q1 q2 : Nat) :
    merge_or_add_line (merge_or_add_line [] (OrderLine.mk k lab1 q1 (build_canon_id k)))
        (OrderLine.mk k lab2 q2 (build_canon_id k))
      = [OrderLine.mk k lab1 (q1 + q2) (build_canon_id k)]
    ∧ compute_buckets_and_servings [OrderLine.mk k lab1 (q1 + q2) (build_canon_id k)]
      = compute_buckets_and_servings
          [OrderLine.mk k lab1 q1 (build_canon_id k), OrderLine.mk k lab2 q2 (build_canon_id k)] := by
  constructor
  · simp [merge_or_add_line]
  · rw [compute_single]
    cases hs : lineSpec k with
    | none =>
      simp [compute_buckets_and_servings, computeAux, applyStep, hs]
    | some u =>
      simp only [compute_buckets_and_servings, computeAux, applyStep, hs, Option.map_some']
      rw [applyDelta_scale_add]

/-- C7 helper: a line whose catalog lookup fails anywhere in the list makes the
whole aggregation fail. -/
theorem computeAux_none_of_mem (l : OrderLine) (hnone : lineSpec l.key = none) :
    ∀ ls : List OrderLine, l ∈ ls → ∀ t, computeAux t ls = none := by
  intro ls
  induction ls with
  | nil => intro h; cases h
  | cons x xs ih =>
    intro hl t
    rcases List.mem_cons.mp hl with rfl | hmem
    · simp [computeAux, applyStep, hnone]
    · simp only [computeAux]
      cases hx : applyStep t x with
      | none => rfl
      | some t1 => exact ih hmem t1

theorem mainUnit_unknown (key : LineKey) (h : key.item_id ∉ MAIN_ITEM_IDS) :
    mainUnit key = emptyUnit := by
  simp only [MAIN_ITEM_IDS, List.mem_cons, List.not_mem_nil, or_false, not_or] at h
  obtain ⟨n1, n2, n3, n4, n5, n6⟩ := h
  have hms : MAIN_SERVINGS key.item_id = none := by
    simp [MAIN_SERVINGS, n1, n2, n3, n4]
  simp only [mainUnit, if_neg (by tauto : ¬ (key.item_id = "steakburgers_10"
      ∨ key.item_id = "crispy_chx_sand_10" ∨ key.item_id = "grilled_chx_sand_10")),
    if_neg n4, if_neg n5, if_neg n6, hms]
  rfl

theorem applyStep_unknown_main (t : Totals) (l : OrderLine) (hk : l.key.kind = "main")
    (h : l.key.item_id ∉ MAIN_ITEM_IDS) : applyStep t l = some t := by
  have hls : lineSpec l.key = some emptyUnit := by
    simp [lineSpec, hk, mainUnit_unknown _ h]
  rw [applyStep, hls, Option.map_some']
  congr 1
  cases t
  simp [applyDelta, emptyUnit, UnitDelta.scaled, scaleList, addAll]

/-- C7 (amended): an order line with an unknown combo tier or an unknown
à-la-carte id makes aggregation fail immediately, but a `main` line with an
unknown itemId is silently skipped: aggregation succeeds and the line
contributes nothing. -/
theorem c7_unknown_item_behaviour :
    (∀ (lines : List OrderLine) (l : OrderLine), l ∈ lines → l.key.kind = "combo" →
        COMBO_TIERS l.key.item_id = none → compute_buckets_and_servings lines = none)
    ∧ (∀ (lines : List OrderLine) (l : OrderLine), l ∈ lines → l.key.kind = "alacarte" →
        ALACARTE_LOOKUP l.key.item_id = none → compute_buckets_and_servings lines = none)
    ∧ (∀ (pre post : List OrderLine) (l : OrderLine), l.key.kind = "main" →
        l.key.item_id ∉ MAIN_ITEM_IDS →
        compute_buckets_and_servings (pre ++ l :: post)
          = compute_buckets_and_servings (pre ++ post)) := by
  refine ⟨?_, ?_, ?_⟩
  · intro lines l hl hk htier
    exact computeAux_none_of_mem l (by simp [lineSpec, hk, htier]) lines hl emptyTotals
  · intro lines l hl hk hlook
    exact computeAux_none_of_mem l (by simp [lineSpec, hk, hlook]) lines hl emptyTotals
  · intro pre post l hk hid
    unfold compute_buckets_and_servings
    rw [computeAux_append, computeAux_append]
    cases hpre : computeAux emptyTotals pre with
    | none => rfl
    | some t1 =>
      simp only [Option.some_bind]
      simp only [computeAux, applyStep_unknown_main t1 l hk hid]

/-- C7 counterexample: a `main` order line with an itemId that is in no catalog
set ("mystery_item") does not fail: aggregation succeeds and returns empty
totals, i.e. the line is silently absorbed rather than raising an error. -/
theorem c7_counterexample :
    bogusMainLine.key.kind = "main"
    ∧ bogusMainLine.key.item_id ∉ MAIN_ITEM_IDS
    ∧ compute_buckets_and_servings [bogusMainLine] = some emptyTotals := by
  refine ⟨rfl, by decide, ?_⟩
  rfl

/-- C7 witness: the three clauses of `c7_unknown_item_behaviour` at concrete
bogus lines. -/
theorem c7_unknown_item_behaviour_witness :
    (bogusComboLine ∈ [bogusComboLine] ∧ bogusComboLine.key.kind = "combo"
      ∧ COMBO_TIERS bogusComboLine.key.item_id = none
      ∧ compute_buckets_and_servings [bogusComboLine] = none)
    ∧ (bogusAlacarteLine ∈ [bogusAlacarteLine] ∧ bogusAlacarteLine.key.kind = "alacarte"
      ∧ ALACARTE_LOOKUP bogusAlacarteLine.key.item_id = none
      ∧ compute_buckets_and_servings [bogusAlacarteLine] = none)
    ∧ (bogusMainLine.key.kind = "main" ∧ bogusMainLine.key.item_id ∉ MAIN_ITEM_IDS
      ∧ compute_buckets_and_servings ([] ++ bogusMainLine :: [])
          = compute_buckets_and_servings ([] ++ [])) :=
  ⟨⟨List.mem_singleton_self _, rfl, rfl,
     c7_unknown_item_behaviour.1 [bogusComboLine] bogusComboLine
       (List.mem_singleton_self _) rfl rfl⟩,
   ⟨List.mem_singleton_self _, rfl, rfl,
     c7_unknown_item_behaviour.2.1 [bogusAlacarteLine] bogusAlacarteLine
       (List.mem_singleton_self _) rfl rfl⟩,
   ⟨rfl, by decide,
     c7_unknown_item_behaviour.2.2 [] [] bogusMainLine rfl (by decide)⟩⟩

/-- C1 counterexample: for the claimed order (Small Combo Box, Bacon,
Buttermilk Pancakes, qty 2), running the pipeline with only the plates toggle
on (utensils and napkins off) drops the serving forks and tongs from the
service map (the utensils-off branch strips them), so the claimed
`Serving Forks = 4` and `Serving Tongs = 4` do not hold under the claim's
stated condition; plates are still 20. -/
theorem c1_counterexample :
    serviceAt (day_of_totals [smallBaconPancakesLine 2] 0 true false false) "Serving Forks"
        = some none
    ∧ serviceAt (day_of_totals [smallBaconPancakesLine 2] 0 true false false) "Serving Tongs"
        = some none
    ∧ guestwareAt (day_of_totals [smallBaconPancakesLine 2] 0 true false false) "Paper Plates"
        = some (some 20) :=
  ⟨by decide, by decide, by decide⟩

/-- C1 (amended): with the plates AND utensils toggles on (napkins arbitrary),
the order [Small Combo Box | Bacon | Buttermilk Pancakes, qty 2] produces
exactly the listed quantities: Scrambled Eggs 80 oz, Red Pots 120 oz, Bacon
40 pcs, Buttermilk Pancakes 40 pcs; Aluminum half-pans 6; Butter, Syrup and
Ketchup Packets 20 each; Serving Forks 4, Serving Tongs 4; Paper Plates 20. -/
theorem c1_small_combo_scenario (rn : Bool) :
    foodAt (day_of_totals [smallBaconPancakesLine 2] 0 true true rn) "Scrambled Eggs (oz)"
        = some (some 80)
    ∧ foodAt (day_of_totals [smallBaconPancakesLine 2] 0 true true rn) "Red Pots (oz)"
        = some (some 120)
    ∧ foodAt (day_of_totals [smallBaconPancakesLine 2] 0 true true rn) "Bacon (pcs)"
        = some (some 40)
    ∧ foodAt (day_of_totals [smallBaconPancakesLine 2] 0 true true rn) "Buttermilk Pancakes (pcs)"
        = some (some 40)
    ∧ packagingAt (day_of_totals [smallBaconPancakesLine 2] 0 true true rn) "Aluminum ½ Pans"
        = some (some 6)
    ∧ condAt (day_of_totals [smallBaconPancakesLine 2] 0 true true rn) "Butter Packets"
        = some (some 20)
    ∧ condAt (day_of_totals [smallBaconPancakesLine 2] 0 true true rn) "Syrup Packets"
        = some (some 20)
    ∧ condAt (day_of_totals [smallBaconPancakesLine 2] 0 true true rn) "Ketchup Packets"
        = some (some 20)
    ∧ serviceAt (day_of_totals [smallBaconPancakesLine 2] 0 true true rn) "Serving Forks"
        = some (some 4)
    ∧ serviceAt (day_of_totals [smallBaconPancakesLine 2] 0 true true rn) "Serving Tongs"
        = some (some 4)
    ∧ guestwareAt (day_of_totals [smallBaconPancakesLine 2] 0 true true rn) "Paper Plates"
        = some (some 20) := by
  cases rn <;> exact ⟨by decide, by decide, by decide, by decide, by decide, by decide,
    by decide, by decide, by decide, by decide, by decide⟩

/-- C6 counterexample: the toggle derivation does not leave the guestware map
unchanged: with servings 20, all toggles on and both maps empty, the guestware
mapping afterwards carries `Paper Plates = 20` where the input had no entry (in
the Python source the very dictionary passed in is mutated in place and the
function returns `None`). -/
theorem c6_counterexample :
    (apply_guest_requested_toggles 20 emptyMap emptyMap true true true).1 "Paper Plates"
        = some 20
    ∧ emptyMap "Paper Plates" = none :=
  ⟨by decide, rfl⟩

/-- C6 (amended): the toggle derivation updates only the passed guestware and
service maps, and only at the toggle-controlled keys: every key other than
Paper Plates / Napkins / Wrapped Cutlery Sets keeps its guestware value, and
every key other than the three serving utensils keeps its service value; the
food, packaging and condiment maps are not parameters of the function at all.
(The Python function performs these updates by mutating the two dictionaries
in place and returning `None`, not by returning an augmented copy.) -/
theorem c6_toggles_frame (ts : Nat) (gw sv : RMap) (rp ru rn : Bool) (k : String) :
    (k ≠ "Paper Plates" → k ≠ "Napkins" → k ≠ "Wrapped Cutlery Sets" →
      (apply_guest_requested_toggles ts gw sv rp ru rn).1 k = gw k)
    ∧ (k ≠ "Serving Tongs" → k ≠ "Serving Spoons" → k ≠ "Serving Forks" →
      (apply_guest_requested_toggles ts gw sv rp ru rn).2 k = sv k) := by
  constructor
  · intro h1 h2 h3
    simp only [apply_guest_requested_toggles]
    split
    · dsimp only
      rw [_add_ne _ _ _ _ h3]
      split
      · rw [_add_ne _ _ _ _ h2]
        split
        · rw [_add_ne _ _ _ _ h1]
        · rfl
      · split
        · rw [_add_ne _ _ _ _ h1]
        · rfl
    · dsimp only
      split
      · rw [_add_ne _ _ _ _ h2]
        split
        · rw [_add_ne _ _ _ _ h1]
        · rfl
      · split
        · rw [_add_ne _ _ _ _ h1]
        · rfl
  · intro h1 h2 h3
    simp only [apply_guest_requested_toggles]
    split
    · rfl
    · dsimp only
      rw [_drop_ne _ _ _ h3, _drop_ne _ _ _ h2, _drop_ne _ _ _ h1]

/-- C6 witness: the frame property of `c6_toggles_frame` at a beverage
guestware key untouched by any toggle. -/
theorem c6_toggles_frame_witness :
    ((apply_guest_requested_toggles 5 emptyMap emptyMap true true true).1 "Cold Cups"
        = emptyMap "Cold Cups")
    ∧ ((apply_guest_requested_toggles 5 emptyMap emptyMap true true true).2 "Cold Cups"
        = emptyMap "Cold Cups") :=
  ⟨(c6_toggles_frame 5 emptyMap emptyMap true true true "Cold Cups").1
      (by decide) (by decide) (by decide),
   (c6_toggles_frame 5 emptyMap emptyMap true true true "Cold Cups").2
      (by decide) (by decide) (by decide)⟩

theorem toggles_wcs_value (ts : Nat) (gw sv : RMap) (rp rn : Bool)
    (hwcs : gw "Wrapped Cutlery Sets" = none) (hpos : 0 < ts) :
    (apply_guest_requested_toggles ts gw sv rp true rn).1 "Wrapped Cutlery Sets"
      = some (ts : ℤ) := by
  simp only [apply_guest_requested_toggles]
  rw [if_pos ⟨trivial, hpos⟩]
  dsimp only
  have hval : ∀ g : RMap, g "Wrapped Cutlery Sets" = none →
      _add g "Wrapped Cutlery Sets" (ts : ℤ) "Wrapped Cutlery Sets" = some (ts : ℤ) := by
    intro g hg
    simp [_add, hg]
  apply hval
  split
  · rw [_add_ne _ "Napkins" "Wrapped Cutlery Sets" _ (by decide)]
    split
    · rw [_add_ne _ "Paper Plates" "Wrapped Cutlery Sets" _ (by decide)]
      exact hwcs
    · exact hwcs
  · split
    · rw [_add_ne _ "Paper Plates" "Wrapped Cutlery Sets" _ (by decide)]
      exact hwcs
    · exact hwcs

/-- C5: on totals produced by aggregation (order lines all have quantity ≥ 1,
as the UI guarantees): with the utensils toggle off the derivation removes
every serving-utensil entry (tongs, spoons, forks) from the service map; with
it on, the service map is kept exactly as aggregated, and when
`totalServings > 0` a `Wrapped Cutlery Sets` entry equal to the total servings
is added to the guestware map. -/
theorem c5_utensils_toggle (lines : List OrderLine) (t : Totals) (rp rn : Bool)
    (hq : ∀ l ∈ lines, 1 ≤ l.qty)
    (ht : compute_buckets_and_servings lines = some t) :
    ((apply_guest_requested_toggles t.servings t.guestware t.service rp false rn).2
          "Serving Tongs" = none
      ∧ (apply_guest_requested_toggles t.servings t.guestware t.service rp false rn).2
          "Serving Spoons" = none
      ∧ (apply_guest_requested_toggles t.servings t.guestware t.service rp false rn).2
          "Serving Forks" = none)
    ∧ (apply_guest_requested_toggles t.servings t.guestware t.service rp true rn).2 = t.service
    ∧ (0 < t.servings →
        (apply_guest_requested_toggles t.servings t.guestware t.service rp true rn).1
            "Wrapped Cutlery Sets" = some (t.servings : ℤ)) := by
  have hoff : (apply_guest_requested_toggles t.servings t.guestware t.service rp false rn).2
      = _drop (_drop (_drop t.service "Serving Tongs") "Serving Spoons") "Serving Forks" := by
    simp only [apply_guest_requested_toggles]
    rw [if_neg (by simp)]
  refine ⟨⟨?_, ?_, ?_⟩, ?_, ?_⟩
  · rw [hoff, _drop_ne _ "Serving Forks" "Serving Tongs" (by decide),
      _drop_ne _ "Serving Spoons" "Serving Tongs" (by decide)]
    simp [_drop]
  · rw [hoff, _drop_ne _ "Serving Forks" "Serving Spoons" (by decide)]
    simp [_drop]
  · rw [hoff]
    simp [_drop]
  · by_cases hpos : 0 < t.servings
    · simp only [apply_guest_requested_toggles]
      rw [if_pos ⟨trivial, hpos⟩]
    · have h0 : t.servings = 0 := Nat.eq_zero_of_not_pos hpos
      have hsvc : t.service = emptyTotals.service :=
        (computeAux_service_inv lines emptyTotals t hq ht).2 (by simp [emptyTotals, h0])
      simp only [apply_guest_requested_toggles]
      rw [if_neg (by simp [h0])]
      dsimp only
      rw [hsvc]
      funext q
      simp [_drop, emptyTotals, emptyMap]
  · intro hpos
    have hwcs : t.guestware "Wrapped Cutlery Sets" = none := by
      rw [computeAux_guestware_wcs lines emptyTotals t ht]
      rfl
    exact toggles_wcs_value t.servings t.guestware t.service rp rn hwcs hpos

/-- C5 witness: `c5_utensils_toggle` at the empty order (whose aggregation is
the empty totals). -/
theorem c5_utensils_toggle_witness :
    ((apply_guest_requested_toggles emptyTotals.servings emptyTotals.guestware
          emptyTotals.service true false true).2 "Serving Tongs" = none
      ∧ (apply_guest_requested_toggles emptyTotals.servings emptyTotals.guestware
          emptyTotals.service true false true).2 "Serving Spoons" = none
      ∧ (apply_guest_requested_toggles emptyTotals.servings emptyTotals.guestware
          emptyTotals.service true false true).2 "Serving Forks" = none)
    ∧ (apply_guest_requested_toggles emptyTotals.servings emptyTotals.guestware
        emptyTotals.service true true true).2 = emptyTotals.service
    ∧ (0 < emptyTotals.servings →
        (apply_guest_requested_toggles emptyTotals.servings emptyTotals.guestware
            emptyTotals.service true true true).1 "Wrapped Cutlery Sets"
          = some (emptyTotals.servings : ℤ)) :=
  c5_utensils_toggle [] emptyTotals true true
    (fun l hl => absurd hl (List.not_mem_nil l)) rfl

/-! ### C8 helpers -/

def comboLine (tier : String) (protein griddle : Option String) (lab : String) (q : Nat)
    (cid : String) : OrderLine :=
  OrderLine.mk (LineKey.mk "combo" tier protein griddle none) lab q cid

theorem proteinFoodAdds_keys (spec : ComboSpec) (protein : Option String) :
    ∀ p ∈ proteinFoodAdds spec protein,
      p.1 = "Bacon (pcs)" ∨ p.1 = "Pork Sausage Links (pcs)" ∨ p.1 = "Sampler Ham (pcs)" := by
  intro p hp
  simp only [proteinFoodAdds] at hp
  by_cases h1 : protein = some "Bacon"
  · rw [if_pos h1] at hp
    simp only [List.mem_singleton] at hp
    subst hp
    simp
  · rw [if_neg h1] at hp
    by_cases h2 : protein = some "Pork Sausage Links"
    · rw [if_pos h2] at hp
      simp only [List.mem_singleton] at hp
      subst hp
      simp
    · rw [if_neg h2] at hp
      by_cases h3 : protein = some "Sampler Ham"
      · rw [if_pos h3] at hp
        simp only [List.mem_singleton] at hp
        subst hp
        simp
      · rw [if_neg h3] at hp
        simp at hp

theorem proteinPackAdds_keys (spec : ComboSpec) (protein : Option String) :
    ∀ p ∈ proteinPackAdds spec protein, p.1 = "IHOP Large Plastic Base" := by
  intro p hp
  simp only [proteinPackAdds] at hp
  by_cases h1 : protein = some "Bacon"
  · rw [if_pos h1] at hp
    simp only [List.mem_singleton] at hp
    subst hp
    simp
  · rw [if_neg h1] at hp
    by_cases h2 : protein = some "Pork Sausage Links"
    · rw [if_pos h2] at hp
      simp only [List.mem_singleton] at hp
      subst hp
      simp
    · rw [if_neg h2] at hp
      by_cases h3 : protein = some "Sampler Ham"
      · rw [if_pos h3] at hp
        simp only [List.mem_singleton] at hp
        subst hp
        simp
      · rw [if_neg h3] at hp
        simp at hp

theorem compute_comboLine (tier : String) (spec : ComboSpec)
    (hspec : COMBO_TIERS tier = some spec) (protein griddle : Option String) (lab : String)
    (q : Nat) (cid : String) :
    compute_buckets_and_servings [comboLine tier protein griddle lab q cid]
      = some (applyDelta emptyTotals ((comboUnit spec protein griddle).scaled q)) := by
  rw [compute_single]
  have hls : lineSpec (comboLine tier protein griddle lab q cid).key
      = some (comboUnit spec protein griddle) := by
    simp [comboLine, lineSpec, hspec]
  rw [hls, Option.map_some']
  rfl

theorem comboUnit_food_ft (spec : ComboSpec) (protein : Option String) :
    (comboUnit spec protein (some "French Toast")).food
      = [("Scrambled Eggs (oz)", spec.eggs_oz), ("Red Pots (oz)", spec.red_pots_oz)]
        ++ proteinFoodAdds spec protein ++ [("French Toast (slices)", spec.ft_slices)] := by
  simp [comboUnit, griddleFoodAdds]

theorem comboUnit_food_p (spec : ComboSpec) (protein : Option String) :
    (comboUnit spec protein (some "Buttermilk Pancakes")).food
      = [("Scrambled Eggs (oz)", spec.eggs_oz), ("Red Pots (oz)", spec.red_pots_oz)]
        ++ proteinFoodAdds spec protein ++ [("Buttermilk Pancakes (pcs)", spec.pancakes_pcs)] := by
  simp [comboUnit, griddleFoodAdds]

theorem comboUnit_pack_ft (spec : ComboSpec) (protein : Option String) :
    (comboUnit spec protein (some "French Toast")).packaging
      = proteinPackAdds spec protein
        ++ [("Aluminum ½ Pans", spec.half_pans_ft),
            ("Aluminum ½ Pans", spec.half_pans_eggs + spec.half_pans_red_pots)] := by
  simp [comboUnit, griddlePackAdds]

theorem comboUnit_pack_p (spec : ComboSpec) (protein : Option String) :
    (comboUnit spec protein (some "Buttermilk Pancakes")).packaging
      = proteinPackAdds spec protein
        ++ [("Aluminum ½ Pans", spec.half_pans_pancakes),
            ("Aluminum ½ Pans", spec.half_pans_eggs + spec.half_pans_red_pots)] := by
  simp [comboUnit, griddlePackAdds]

theorem comboUnit_cond_ft (spec : ComboSpec) (protein : Option String) :
    (comboUnit spec protein (some "French Toast")).cond
      = ("Powdered Sugar Cups (2 oz)", spec.powdered_sugar_cups_2oz)
        :: [("Butter Packets", spec.butter_packets), ("Syrup Packets", spec.syrup_packets),
            ("Ketchup Packets", spec.ketchup_packets)] := by
  simp [comboUnit, griddleCondAdds]

theorem comboUnit_cond_p (spec : ComboSpec) (protein : Option String) :
    (comboUnit spec protein (some "Buttermilk Pancakes")).cond
      = [("Butter Packets", spec.butter_packets), ("Syrup Packets", spec.syrup_packets),
         ("Ketchup Packets", spec.ketchup_packets)] := by
  simp [comboUnit, griddleCondAdds]

/-- C8: for every combo line the griddle choice routes mutually exclusively:
with griddle "French Toast" the aggregate has no Buttermilk Pancakes food
entry, the half-pan count is the French-toast pan count plus the eggs and
red-pots pans (no pancake pans), and exactly the tier's powdered-sugar-cup
delta times the quantity is added; with griddle "Buttermilk Pancakes" there is
no French Toast food entry, the half-pan count uses the pancake pan count, and
no powdered sugar is added. -/
theorem c8_griddle_exclusive (tier : String) (spec : ComboSpec)
    (hspec : COMBO_TIERS tier = some spec) (protein : Option String) (lab cid : String)
    (q : Nat) :
    foodAt (compute_buckets_and_servings [comboLine tier protein (some "French Toast") lab q cid])
        "Buttermilk Pancakes (pcs)" = some none
    ∧ packagingAt
        (compute_buckets_and_servings [comboLine tier protein (some "French Toast") lab q cid])
        "Aluminum ½ Pans"
        = some (some (spec.half_pans_ft * (q : ℤ)
            + (spec.half_pans_eggs + spec.half_pans_red_pots) * (q : ℤ)))
    ∧ condAt (compute_buckets_and_servings [comboLine tier protein (some "French Toast") lab q cid])
        "Powdered Sugar Cups (2 oz)" = some (some (spec.powdered_sugar_cups_2oz * (q : ℤ)))
    ∧ foodAt
        (compute_buckets_and_servings [comboLine tier protein (some "Buttermilk Pancakes") lab q cid])
        "French Toast (slices)" = some none
    ∧ packagingAt
        (compute_buckets_and_servings [comboLine tier protein (some "Buttermilk Pancakes") lab q cid])
        "Aluminum ½ Pans"
        = some (some (spec.half_pans_pancakes * (q : ℤ)
            + (spec.half_pans_eggs + spec.half_pans_red_pots) * (q : ℤ)))
    ∧ condAt
        (compute_buckets_and_servings [comboLine tier protein (some "Buttermilk Pancakes") lab q cid])
        "Powdered Sugar Cups (2 oz)" = some none := by
  refine ⟨?_, ?_, ?_, ?_, ?_, ?_⟩
  · rw [compute_comboLine tier spec hspec protein (some "French Toast") lab q cid]
    simp only [foodAt, Option.map_some']
    show some (addAll emptyMap
        (scaleList q (comboUnit spec protein (some "French Toast")).food)
        "Buttermilk Pancakes (pcs)") = some none
    rw [addAll_empty_lookup_none]
    apply scaleList_keys
    rw [comboUnit_food_ft]
    intro p hp
    simp only [List.mem_append, List.mem_cons, List.not_mem_nil, or_false] at hp
    rcases hp with ((rfl | rfl) | hp) | rfl
    · simp
    · simp
    · rcases proteinFoodAdds_keys spec protein p hp with h | h | h <;> rw [h] <;> decide
    · simp
  · rw [compute_comboLine tier spec hspec protein (some "French Toast") lab q cid]
    simp only [packagingAt, Option.map_some']
    show some (addAll emptyMap
        (scaleList q (comboUnit spec protein (some "French Toast")).packaging)
        "Aluminum ½ Pans")
      = some (some (spec.half_pans_ft * (q : ℤ)
          + (spec.half_pans_eggs + spec.half_pans_red_pots) * (q : ℤ)))
    rw [comboUnit_pack_ft, scaleList_append]
    rw [show scaleList q [("Aluminum ½ Pans", spec.half_pans_ft),
          ("Aluminum ½ Pans", spec.half_pans_eggs + spec.half_pans_red_pots)]
        = [("Aluminum ½ Pans", spec.half_pans_ft * (q : ℤ)),
           ("Aluminum ½ Pans", (spec.half_pans_eggs + spec.half_pans_red_pots) * (q : ℤ))]
      from rfl]
    rw [addAll_empty_lookup_two]
    apply scaleList_keys
    intro p hp
    rw [proteinPackAdds_keys spec protein p hp]
    decide
  · rw [compute_comboLine tier spec hspec protein (some "French Toast") lab q cid]
    simp only [condAt, Option.map_some']
    show some (addAll emptyMap
        (scaleList q (comboUnit spec protein (some "French Toast")).cond)
        "Powdered Sugar Cups (2 oz)")
      = some (some (spec.powdered_sugar_cups_2oz * (q : ℤ)))
    rw [comboUnit_cond_ft]
    rw [show scaleList q (("Powdered Sugar Cups (2 oz)", spec.powdered_sugar_cups_2oz)
          :: [("Butter Packets", spec.butter_packets), ("Syrup Packets", spec.syrup_packets),
              ("Ketchup Packets", spec.ketchup_packets)])
        = ("Powdered Sugar Cups (2 oz)", spec.powdered_sugar_cups_2oz * (q : ℤ))
          :: [("Butter Packets", spec.butter_packets * (q : ℤ)),
              ("Syrup Packets", spec.syrup_packets * (q : ℤ)),
              ("Ketchup Packets", spec.ketchup_packets * (q : ℤ))]
      from rfl]
    rw [show (("Powdered Sugar Cups (2 oz)", spec.powdered_sugar_cups_2oz * (q : ℤ))
          :: [("Butter Packets", spec.butter_packets * (q : ℤ)),
              ("Syrup Packets", spec.syrup_packets * (q : ℤ)),
              ("Ketchup Packets", spec.ketchup_packets * (q : ℤ))])
        = [] ++ ("Powdered Sugar Cups (2 oz)", spec.powdered_sugar_cups_2oz * (q : ℤ))
          :: [("Butter Packets", spec.butter_packets * (q : ℤ)),
              ("Syrup Packets", spec.syrup_packets * (q : ℤ)),
              ("Ketchup Packets", spec.ketchup_packets * (q : ℤ))]
      from rfl]
    rw [addAll_empty_lookup_single]
    · intro p hp
      simp at hp
    · intro p hp
      simp only [List.mem_cons, List.not_mem_nil, or_false] at hp
      rcases hp with rfl | rfl | rfl <;> simp
  · rw [compute_comboLine tier spec hspec protein (some "Buttermilk Pancakes") lab q cid]
    simp only [foodAt, Option.map_some']
    show some (addAll emptyMap
        (scaleList q (comboUnit spec protein (some "Buttermilk Pancakes")).food)
        "French Toast (slices)") = some none
    rw [addAll_empty_lookup_none]
    apply scaleList_keys
    rw [comboUnit_food_p]
    intro p hp
    simp only [List.mem_append, List.mem_cons, List.not_mem_nil, or_false] at hp
    rcases hp with ((rfl | rfl) | hp) | rfl
    · simp
    · simp
    · rcases proteinFoodAdds_keys spec protein p hp with h | h | h <;> rw [h] <;> decide
    · simp
  · rw [compute_comboLine tier spec hspec protein (some "Buttermilk Pancakes") lab q cid]
    simp only [packagingAt, Option.map_some']
    show some (addAll emptyMap
        (scaleList q (comboUnit spec protein (some "Buttermilk Pancakes")).packaging)
        "Aluminum ½ Pans")
      = some (some (spec.half_pans_pancakes * (q : ℤ)
          + (spec.half_pans_eggs + spec.half_pans_red_pots) * (q : ℤ)))
    rw [comboUnit_pack_p, scaleList_append]
    rw [show scaleList q [("Aluminum ½ Pans", spec.half_pans_pancakes),
          ("Aluminum ½ Pans", spec.half_pans_eggs + spec.half_pans_red_pots)]
        = [("Aluminum ½ Pans", spec.half_pans_pancakes * (q : ℤ)),
           ("Aluminum ½ Pans", (spec.half_pans_eggs + spec.half_pans_red_pots) * (q : ℤ))]
      from rfl]
    rw [addAll_empty_lookup_two]
    apply scaleList_keys
    intro p hp
    rw [proteinPackAdds_keys spec protein p hp]
    decide
  · rw [compute_comboLine tier spec hspec protein (some "Buttermilk Pancakes") lab q cid]
    simp only [condAt, Option.map_some']
    show some (addAll emptyMap
        (scaleList q (comboUnit spec protein (some "Buttermilk Pancakes")).cond)
        "Powdered Sugar Cups (2 oz)") = some none
    rw [addAll_empty_lookup_none]
    apply scaleList_keys
    rw [comboUnit_cond_p]
    intro p hp
    simp only [List.mem_cons, List.not_mem_nil, or_false] at hp
    rcases hp with rfl | rfl | rfl <;> simp

/-- C8 witness: the griddle-routing facts at the Small Combo Box with Bacon and
quantity 2. -/
theorem c8_griddle_exclusive_witness :
    COMBO_TIERS "Small Combo Box" = some smallComboSpec
    ∧ condAt (compute_buckets_and_servings
          [comboLine "Small Combo Box" (some "Bacon") (some "French Toast") "lbl" 2 "cid"])
        "Powdered Sugar Cups (2 oz)"
        = some (some (smallComboSpec.powdered_sugar_cups_2oz * ((2 : Nat) : ℤ)))
    ∧ condAt (compute_buckets_and_servings
          [comboLine "Small Combo Box" (some "Bacon") (some "Buttermilk Pancakes") "lbl" 2 "cid"])
        "Powdered Sugar Cups (2 oz)" = some none :=
  ⟨rfl,
   (c8_griddle_exclusive "Small Combo Box" smallComboSpec rfl (some "Bacon") "lbl" "cid" 2).2.2.1,
   (c8_griddle_exclusive "Small Combo Box" smallComboSpec rfl (some "Bacon") "lbl" "cid" 2).2.2.2.2.2⟩

/-- C9: the bag formatter has a hard branch at the one-bag boundary: at exactly
one bag's worth (96 oz against a 6 lb = 96 oz bag, 6 oz portions) the output is
"Red Pots: 1 bag" with no "PLUS" phrase; one ounce over (97 oz) it reports
"1 bag PLUS 1 oz" with the remainder re-expressed in portions and pounds; and
in general whenever a full bag's worth is consumed (16·bag_lb ≤ total_oz,
bag_lb > 0) the output comes from one of the two ≥ 1 bag branches, never the
under-one-bag wording. -/
theorem c9_bag_overflow_boundary :
    bag_and_portion_line_from_oz "Red Pots" 96 6 6 = "Red Pots: 1 bag"
    ∧ ¬ List.IsInfix "PLUS".toList (bag_and_portion_line_from_oz "Red Pots" 96 6 6).toList
    ∧ bag_and_portion_line_from_oz "Red Pots" 97 6 6
        = "Red Pots: 1 bag PLUS 1 oz (0 portions / 0.06 lb)"
    ∧ ∀ (name : String) (total_oz portion_oz bag_lb : ℚ), 0 < bag_lb →
        16 * bag_lb ≤ total_oz →
        (bag_and_portion_line_from_oz name total_oz portion_oz bag_lb
            = exactBagsFmt name ⌊ounces_to_lbs total_oz / bag_lb⌋
          ∨ bag_and_portion_line_from_oz name total_oz portion_oz bag_lb
            = plusBagsFmt name ⌊ounces_to_lbs total_oz / bag_lb⌋
                ((ounces_to_lbs total_oz - (⌊ounces_to_lbs total_oz / bag_lb⌋ : ℚ) * bag_lb) * 16)
                (pyRound (((ounces_to_lbs total_oz
                    - (⌊ounces_to_lbs total_oz / bag_lb⌋ : ℚ) * bag_lb) * 16) / portion_oz))
                (ounces_to_lbs total_oz - (⌊ounces_to_lbs total_oz / bag_lb⌋ : ℚ) * bag_lb)) := by
  have h96 : bag_and_portion_line_from_oz "Red Pots" 96 6 6 = "Red Pots: 1 bag" := by
    have hfb : ⌊ounces_to_lbs (96 : ℚ) / (6 : ℚ)⌋ = (1 : ℤ) := by
      norm_num [ounces_to_lbs, Int.floor_eq_iff]
    simp only [bag_and_portion_line_from_oz]
    rw [if_neg (by norm_num : ¬ (96 : ℚ) = 0), hfb,
      if_neg (by norm_num : ¬ (1 : ℤ) = 0),
      if_pos (by norm_num [ounces_to_lbs] :
        (ounces_to_lbs (96 : ℚ) - ((1 : ℤ) : ℚ) * 6) * 16 ≤ 1 / 100)]
    decide
  refine ⟨h96, ?_, ?_, ?_⟩
  · rw [h96]
    decide
  · have hfb : ⌊ounces_to_lbs (97 : ℚ) / (6 : ℚ)⌋ = (1 : ℤ) := by
      norm_num [ounces_to_lbs, Int.floor_eq_iff]
    simp only [bag_and_portion_line_from_oz]
    rw [if_neg (by norm_num : ¬ (97 : ℚ) = 0), hfb,
      if_neg (by norm_num : ¬ (1 : ℤ) = 0),
      if_neg (by norm_num [ounces_to_lbs] :
        ¬ (ounces_to_lbs (97 : ℚ) - ((1 : ℤ) : ℚ) * 6) * 16 ≤ 1 / 100)]
    rw [show (ounces_to_lbs (97 : ℚ) - ((1 : ℤ) : ℚ) * 6) * 16 = 1 by
        norm_num [ounces_to_lbs]]
    rw [show ounces_to_lbs (97 : ℚ) - ((1 : ℤ) : ℚ) * 6 = 1 / 16 by
        norm_num [ounces_to_lbs]]
    have hr6 : pyRound ((1 : ℚ) / 6) = 0 := by
      have hfl : ⌊(1 / 6 : ℚ)⌋ = 0 := by norm_num [Int.floor_eq_iff]
      norm_num [pyRound, hfl]
    have hr1 : pyRound (1 : ℚ) = 1 := by
      norm_num [pyRound, Int.floor_one]
    have hf6 : pyRound ((1 / 16 : ℚ) * 100) = 6 := by
      have hfl : ⌊(1 / 16 : ℚ) * 100⌋ = 6 := by norm_num [Int.floor_eq_iff]
      norm_num [pyRound, hfl]
    rw [hr6]
    simp only [plusBagsFmt, bagWord, fmt2, hf6, hr1]
    decide
  · intro name total_oz portion_oz bag_lb hb hle
    have hpos : (0 : ℚ) < total_oz := lt_of_lt_of_le (by linarith) hle
    have hfb : 1 ≤ ⌊ounces_to_lbs total_oz / bag_lb⌋ := by
      apply Int.le_floor.mpr
      push_cast
      rw [le_div_iff₀ hb, one_mul]
      simp only [ounces_to_lbs]
      rw [le_div_iff₀ (by norm_num : (0 : ℚ) < 16)]
      linarith
    simp only [bag_and_portion_line_from_oz]
    rw [if_neg (ne_of_gt hpos), if_neg (by omega : ¬ ⌊ounces_to_lbs total_oz / bag_lb⌋ = 0)]
    by_cases hrem : (ounces_to_lbs total_oz
        - (⌊ounces_to_lbs total_oz / bag_lb⌋ : ℚ) * bag_lb) * 16 ≤ 1 / 100
    · rw [if_pos hrem]
      exact Or.inl rfl
    · rw [if_neg hrem]
      exact Or.inr rfl

/-- C9 witness: the general ≥ 1 bag clause of `c9_bag_overflow_boundary` at the
96 oz / 6 lb bag input. -/
theorem c9_bag_overflow_boundary_witness :
    (0 : ℚ) < 6 ∧ 16 * (6 : ℚ) ≤ 96
    ∧ (bag_and_portion_line_from_oz "Red Pots" 96 6 6
          = exactBagsFmt "Red Pots" ⌊ounces_to_lbs 96 / 6⌋
        ∨ bag_and_portion_line_from_oz "Red Pots" 96 6 6
          = plusBagsFmt "Red Pots" ⌊ounces_to_lbs 96 / 6⌋
              ((ounces_to_lbs 96 - (⌊ounces_to_lbs 96 / 6⌋ : ℚ) * 6) * 16)
              (pyRound (((ounces_to_lbs 96 - (⌊ounces_to_lbs 96 / 6⌋ : ℚ) * 6) * 16) / 6))
              (ounces_to_lbs 96 - (⌊ounces_to_lbs 96 / 6⌋ : ℚ) * 6)) :=
  ⟨by norm_num, by norm_num,
   c9_bag_overflow_boundary.2.2.2 "Red Pots" 96 6 6 (by norm_num) (by norm_num)⟩
